import Mathlib

/-!
Verification of `examples/relation_classification/utils.py`.

Strings are modelled as `List Char`; Python slicing `s[a:b]` (with its
clamping behaviour for out-of-range indices) is `pySlice`; `' '.join(...)`
is `joinSp`; `str.rstrip()` is `rstrip`.  Python `dict` built by
comprehension over an enumerated list (later duplicate keys win) is
`dictLookup`, returning `Option` so that a missing key (Python `KeyError`)
surfaces as `none`.  The subword tokenizer of the feature encoder is an
opaque capability (`Tokenizer`); the `RobertaTokenizer` `isinstance`
special-case in `tokenize` only changes the arguments forwarded to that
opaque capability, so it is absorbed into the `tokenize` field.
-/

namespace Luke

/-! ### Definitions: the embedding of utils.py, proof-level decompositions of
its two stages, and concrete inputs used in counterexamples and witnesses. -/

/-- Python `str.isspace()` — exactly the characters `str.rstrip()` strips:
U+0009-U+000D, U+001C-U+0020, U+0085, U+00A0, U+1680, U+2000-U+200A,
U+2028, U+2029, U+202F, U+205F, U+3000. -/
def pyIsSpace (c : Char) : Bool :=
  (9 ≤ c.toNat && c.toNat ≤ 13) || (28 ≤ c.toNat && c.toNat ≤ 32) ||
    c.toNat == 0x85 || c.toNat == 0xa0 || c.toNat == 0x1680 ||
    (0x2000 ≤ c.toNat && c.toNat ≤ 0x200a) || c.toNat == 0x2028 || c.toNat == 0x2029 ||
    c.toNat == 0x202f || c.toNat == 0x205f || c.toNat == 0x3000

/-- Python `str.rstrip()`: remove trailing whitespace. -/
def rstrip (l : List Char) : List Char :=
  (l.reverse.dropWhile pyIsSpace).reverse

/-- Python slice `l[a:b]` for non-negative indices (clamped at the length). -/
def pySlice (l : List α) (a b : Nat) : List α :=
  (l.take b).drop a

/-- Python `' '.join(ts)`. -/
def joinSp : List (List Char) → List Char
  | [] => []
  | [t] => t
  | t :: ts => t ++ [' '] ++ joinSp ts

/-- `ENTITY_TYPES` from utils.py. -/
def ENTITY_TYPES : List String :=
  ["CAUSE_OF_DEATH", "CITY", "COUNTRY", "CRIMINAL_CHARGE", "DATE", "DURATION", "IDEOLOGY",
   "LOCATION", "MISC", "NATIONALITY", "NUMBER", "ORGANIZATION", "PERSON", "RELIGION",
   "STATE_OR_PROVINCE", "TITLE", "URL"]

/-- `HEAD_TOKEN` from utils.py. -/
def HEAD_TOKEN : String := "[HEAD]"

/-- `TAIL_TOKEN` from utils.py. -/
def TAIL_TOKEN : String := "[TAIL]"

/-- One raw JSON record of a split file (section 6 of the spec). -/
structure Record where
  token : List (List Char)
  subj_start : Nat
  subj_end : Nat
  obj_start : Nat
  obj_end : Nat
  subj_type : String
  obj_type : String
  relation : String
deriving DecidableEq

/-- The two entity keys of a record. -/
inductive EntityKey
  | subj
  | obj
deriving DecidableEq

/-- `InputExample` from utils.py: spans are character `[start, end)` pairs. -/
structure InputExample where
  id : String
  text : List Char
  span_a : Nat × Nat
  span_b : Nat × Nat
  type_a : String
  type_b : String
  label : String
deriving DecidableEq

/-- The token span (inclusive start, exclusive end) of an entity key,
`token_spans` of `DatasetProcessor._create_examples`. -/
def tokenSpanOf (r : Record) : EntityKey → Nat × Nat
  | .subj => (r.subj_start, r.subj_end + 1)
  | .obj => (r.obj_start, r.obj_end + 1)

/-- Lines 65-68 of utils.py: the order in which the two entities are laid
out in the rebuilt text. -/
def entityOrder (r : Record) : EntityKey × EntityKey :=
  if r.subj_start < r.obj_start then (.subj, .obj) else (.obj, .subj)

/-- The body of the `for target_entity in entity_order` loop of
`_create_examples`: state is `(text, cur)`; returns the new state and the
recorded character span of the processed entity. -/
def addEntity (tokens : List (List Char)) (st : List Char × Nat) (span : Nat × Nat) :
    (List Char × Nat) × (Nat × Nat) :=
  let text := st.1 ++ joinSp (pySlice tokens st.2 span.1)
  let text := if text = [] then text else text ++ [' ']
  let s := text.length
  let text := text ++ joinSp (pySlice tokens span.1 span.2) ++ [' ']
  ((text, span.2), (s, text.length))

/-- `DatasetProcessor._create_examples`, one record (loop body, lines 60-86). -/
def createExample (setType : String) (i : Nat) (r : Record) : InputExample :=
  let ord := entityOrder r
  let r1 := addEntity r.token ([], 0) (tokenSpanOf r ord.1)
  let r2 := addEntity r.token r1.1 (tokenSpanOf r ord.2)
  let text := r2.1.1 ++ joinSp (List.drop r2.1.2 r.token)
  let text := rstrip text
  let charSpans : EntityKey → Nat × Nat := fun k => if k = ord.1 then r1.2 else r2.2
  { id := setType ++ "-" ++ toString i
    text := text
    span_a := charSpans .subj
    span_b := charSpans .obj
    type_a := r.subj_type
    type_b := r.obj_type
    label := r.relation }

/-- `DatasetProcessor._create_examples`, whole split. -/
def createExamples (setType : String) (records : List Record) : List InputExample :=
  records.enum.map fun p => createExample setType p.1 p.2

/-- `DatasetProcessor.get_label_list`, as a function of the train records. -/
def getLabelList (records : List Record) : List String :=
  let labels := ((createExamples "train" records).map (·.label)).filter (· ≠ "no_relation")
  "no_relation" :: List.insertionSort (· ≤ ·) labels.dedup

/-- The two character spans of an `InputExample`, as named in the feature
encoder. -/
inductive SpanName
  | a
  | b
deriving DecidableEq

/-- `getattr(example, span_name)` for the two spans. -/
def spanOf (ex : InputExample) : SpanName → Nat × Nat
  | .a => ex.span_a
  | .b => ex.span_b

/-- Line 118/121 of utils.py: `HEAD_TOKEN if span_name == 'span_a' else
TAIL_TOKEN`. -/
def markerOf : SpanName → String
  | .a => HEAD_TOKEN
  | .b => TAIL_TOKEN

/-- Lines 105-108 of utils.py: which span the encoder processes first. -/
def spanOrder (ex : InputExample) : SpanName × SpanName :=
  if ex.span_a.2 < ex.span_b.2 then (.a, .b) else (.b, .a)

/-- The opaque subword tokenizer capability (section 6 of the spec). -/
structure Tokenizer where
  tokenize : List Char → List String
  cls_token : String
  sep_token : String
  convert_tokens_to_ids : List String → List Nat

/-- Lookup in a Python `dict` built by `{k: i for i, k in enumerate(keys)}`:
the last index whose key matches wins; a missing key is `none` (Python
raises `KeyError`). -/
def dictLookup (keys : List String) (k : String) : Option Nat :=
  ((keys.enum.filter fun p => p.2 = k).getLast?).map (·.1)

/-- The body of the `for span_name in span_order` loop of
`convert_examples_to_features` (lines 113-123): state is `(tokens, cur)`;
returns the new state and the recorded token span of the processed span. -/
def addSpan (tk : Tokenizer) (useMarker : Bool) (ex : InputExample)
    (st : List String × Nat) (name : SpanName) : (List String × Nat) × (Nat × Nat) :=
  let span := spanOf ex name
  let toks := st.1 ++ tk.tokenize (pySlice ex.text st.2 span.1)
  let s := toks.length
  let toks := if useMarker then toks ++ [markerOf name] else toks
  let toks := toks ++ tk.tokenize (pySlice ex.text span.1 span.2)
  let toks := if useMarker then toks ++ [markerOf name] else toks
  ((toks, span.2), (s, toks.length))

/-- Lines 105-126 of utils.py: the full token sequence of one example and
the recorded token spans of `span_a` and `span_b`. -/
def buildTokens (tk : Tokenizer) (useMarker : Bool) (ex : InputExample) :
    List String × ((Nat × Nat) × (Nat × Nat)) :=
  let ord := spanOrder ex
  let r1 := addSpan tk useMarker ex ([tk.cls_token], 0) ord.1
  let r2 := addSpan tk useMarker ex r1.1 ord.2
  let toks := r2.1.1 ++ tk.tokenize (pySlice ex.text r2.1.2 ex.text.length) ++ [tk.sep_token]
  let spA := if ord.1 = .a then r1.2 else r2.2
  let spB := if ord.1 = .a then r2.2 else r1.2
  (toks, (spA, spB))

/-- Lines 140-141 of utils.py:
`list(range(span[0], span[1]))[:max_mention_length]` followed by
`[-1] * (max_mention_length - span[1] + span[0])` (a negative count
replicates to the empty list, as in Python). -/
def positionIds (maxMentionLength : Nat) (span : Nat × Nat) : List Int :=
  ((List.range' span.1 (span.2 - span.1)).map Int.ofNat).take maxMentionLength
    ++ List.replicate ((maxMentionLength - (span.2 : Int) + span.1).toNat) (-1)

/-- `InputFeatures` from utils.py. -/
structure InputFeatures where
  word_ids : List Nat
  word_segment_ids : List Nat
  word_attention_mask : List Nat
  entity_ids : List Nat
  entity_position_ids : List (List Int)
  entity_segment_ids : List Nat
  entity_attention_mask : List Nat
  label : Nat
deriving DecidableEq

/-- One iteration of `convert_examples_to_features` (lines 104-156); `none`
models the `KeyError` raised by `type_map[...]` or `label_map[...]`. -/
def encodeExample (tk : Tokenizer) (labelList : List String) (maxMentionLength : Nat)
    (useEntityType useMarker : Bool) (ex : InputExample) : Option InputFeatures :=
  let r := buildTokens tk useMarker ex
  let entityIds : Option (List Nat) :=
    if useEntityType then
      match dictLookup ENTITY_TYPES ex.type_a, dictLookup ENTITY_TYPES ex.type_b with
      | some i, some j => some [i + 1, j + 1]
      | _, _ => none
    else some [1, 1]
  match entityIds, dictLookup labelList ex.label with
  | some eids, some lab =>
      some { word_ids := tk.convert_tokens_to_ids r.1
             word_segment_ids := List.replicate r.1.length 0
             word_attention_mask := List.replicate r.1.length 1
             entity_ids := eids
             entity_position_ids := [positionIds maxMentionLength r.2.1,
                                     positionIds maxMentionLength r.2.2]
             entity_segment_ids := [0, 0]
             entity_attention_mask := [1, 1]
             label := lab }
  | _, _ => none

/-- Sequential encoding of a list of examples; the first failure (Python:
the first uncaught `KeyError`) aborts the whole conversion. -/
def encodeAll (f : InputExample → Option InputFeatures) :
    List InputExample → Option (List InputFeatures)
  | [] => some []
  | x :: xs =>
    match f x, encodeAll f xs with
    | some y, some ys => some (y :: ys)
    | _, _ => none

/-- `convert_examples_to_features` from utils.py. -/
def convert_examples_to_features (examples : List InputExample) (labelList : List String)
    (tk : Tokenizer) (maxMentionLength : Nat) (useEntityType useMarker : Bool) :
    Option (List InputFeatures) :=
  encodeAll (encodeExample tk labelList maxMentionLength useEntityType useMarker) examples

/-- The record of the spec's section 8 round-trip example. -/
def johnRecord : Record :=
  { token := ["John".toList, "lives".toList, "in".toList, "Paris".toList]
    subj_start := 0
    subj_end := 0
    obj_start := 3
    obj_end := 3
    subj_type := "PERSON"
    obj_type := "CITY"
    relation := "lives_in" }

/-- Whitespace splitting into nonempty chunks, used to instantiate the
opaque tokenizer on concrete inputs. -/
def splitWs : List Char → List Char → List (List Char)
  | [], acc => if acc = [] then [] else [acc]
  | c :: cs, acc =>
      if c = ' ' then (if acc = [] then splitWs cs [] else acc :: splitWs cs [])
      else splitWs cs (acc ++ [c])

/-- A concrete tokenizer instance: whitespace splitting, ids by length. -/
def toyTokenizer : Tokenizer :=
  { tokenize := fun s => (splitWs s []).map String.mk
    cls_token := "<s>"
    sep_token := "</s>"
    convert_tokens_to_ids := fun ts => ts.map (·.length) }

/-- Text before the first entity (with its separating space, if any). -/
def bPre (tokens : List (List Char)) (f : Nat × Nat) : List Char :=
  if joinSp (pySlice tokens 0 f.1) = [] then [] else joinSp (pySlice tokens 0 f.1) ++ [' ']

/-- Space-joined tokens of one entity span. -/
def bJ (tokens : List (List Char)) (sp : Nat × Nat) : List Char :=
  joinSp (pySlice tokens sp.1 sp.2)

/-- Space-joined tokens between the two entity spans. -/
def bMid (tokens : List (List Char)) (f s : Nat × Nat) : List Char :=
  joinSp (pySlice tokens f.2 s.1)

/-- Space-joined tokens after the second entity span. -/
def bTail (tokens : List (List Char)) (s : Nat × Nat) : List Char :=
  joinSp (List.drop s.2 tokens)

/-- The rebuilt text before the final `rstrip`. -/
def bRaw (tokens : List (List Char)) (f s : Nat × Nat) : List Char :=
  bPre tokens f ++ bJ tokens f ++ [' '] ++ bMid tokens f s ++ [' '] ++ bJ tokens s
    ++ [' '] ++ bTail tokens s

/-- Character span recorded for the first-processed entity. -/
def bSpan1 (tokens : List (List Char)) (f : Nat × Nat) : Nat × Nat :=
  ((bPre tokens f).length, (bPre tokens f).length + (bJ tokens f).length + 1)

/-- Character span recorded for the second-processed entity. -/
def bSpan2 (tokens : List (List Char)) (f s : Nat × Nat) : Nat × Nat :=
  ((bSpan1 tokens f).2 + (bMid tokens f s).length + 1,
   (bSpan1 tokens f).2 + (bMid tokens f s).length + 1 + (bJ tokens s).length + 1)

/-- Every token is nonempty and contains no whitespace character. -/
def wfTokens (r : Record) : Prop :=
  ∀ t ∈ r.token, t ≠ [] ∧ ∀ ch ∈ t, pyIsSpace ch = false

/-- Both token spans are within the token list. -/
def inBounds (r : Record) : Prop :=
  r.subj_start ≤ r.subj_end ∧ r.subj_end < r.token.length ∧
    r.obj_start ≤ r.obj_end ∧ r.obj_end < r.token.length

/-- The subj and obj token spans (inclusive) do not overlap. -/
def spansDisjoint (r : Record) : Prop :=
  r.subj_end < r.obj_start ∨ r.obj_end < r.subj_start

instance (r : Record) : Decidable (wfTokens r) := by
  unfold wfTokens
  infer_instance

instance (r : Record) : Decidable (inBounds r) := by
  unfold inBounds
  infer_instance

instance (r : Record) : Decidable (spansDisjoint r) := by
  unfold spansDisjoint
  infer_instance

/-- The marker tokens inserted around a span (empty when disabled). -/
def mark (useMarker : Bool) (name : SpanName) : List String :=
  if useMarker then [markerOf name] else []

/-- The token segment covered by a recorded token span: optional marker,
the span's subword tokens, optional marker. -/
def segTokens (tk : Tokenizer) (useMarker : Bool) (ex : InputExample) (name : SpanName) :
    List String :=
  mark useMarker name ++ tk.tokenize (pySlice ex.text (spanOf ex name).1 (spanOf ex name).2)
    ++ mark useMarker name

/-- Tokens before the first-processed span: leading cls token plus the
subwords of the preceding text. -/
def tPre (tk : Tokenizer) (ex : InputExample) (n1 : SpanName) : List String :=
  [tk.cls_token] ++ tk.tokenize (pySlice ex.text 0 (spanOf ex n1).1)

/-- Subwords of the text between the two processed spans. -/
def tMid (tk : Tokenizer) (ex : InputExample) (n1 n2 : SpanName) : List String :=
  tk.tokenize (pySlice ex.text (spanOf ex n1).2 (spanOf ex n2).1)

/-- Subwords of the trailing text plus the sep token. -/
def tEnd (tk : Tokenizer) (ex : InputExample) (n2 : SpanName) : List String :=
  tk.tokenize (pySlice ex.text (spanOf ex n2).2 ex.text.length) ++ [tk.sep_token]

/-- The full token sequence produced by the encoder when it processes `n1`
then `n2`. -/
def tAll (tk : Tokenizer) (um : Bool) (ex : InputExample) (n1 n2 : SpanName) : List String :=
  tPre tk ex n1 ++ segTokens tk um ex n1 ++ tMid tk ex n1 n2 ++ segTokens tk um ex n2
    ++ tEnd tk ex n2

/-- Token span recorded for the first-processed span. -/
def tSpan1 (tk : Tokenizer) (um : Bool) (ex : InputExample) (n1 : SpanName) : Nat × Nat :=
  ((tPre tk ex n1).length, (tPre tk ex n1).length + (segTokens tk um ex n1).length)

/-- Token span recorded for the second-processed span. -/
def tSpan2 (tk : Tokenizer) (um : Bool) (ex : InputExample) (n1 n2 : SpanName) : Nat × Nat :=
  ((tPre tk ex n1).length + (segTokens tk um ex n1).length + (tMid tk ex n1 n2).length,
   (tPre tk ex n1).length + (segTokens tk um ex n1).length + (tMid tk ex n1 n2).length
     + (segTokens tk um ex n2).length)

/-- A record whose subj and obj token spans start at the same offset. -/
def tieRecord : Record :=
  { token := ["A".toList, "B".toList]
    subj_start := 0
    subj_end := 0
    obj_start := 0
    obj_end := 1
    subj_type := "PERSON"
    obj_type := "MISC"
    relation := "per:r" }

/-- An example whose span_a starts first but ends after span_b. -/
def overlapExample : InputExample :=
  { id := "c4"
    text := "abcdefgh".toList
    span_a := (0, 5)
    span_b := (2, 3)
    type_a := "PERSON"
    type_b := "CITY"
    label := "r" }

/-- An example with overlapping spans where span_a ends first. -/
def overlapExample2 : InputExample :=
  { id := "c4b"
    text := "abcdefgh".toList
    span_a := (0, 3)
    span_b := (2, 6)
    type_a := "PERSON"
    type_b := "CITY"
    label := "r" }

/-- An example whose two spans have equal end offsets. -/
def tieEndsExample : InputExample :=
  { id := "c4t"
    text := "abcdef".toList
    span_a := (0, 3)
    span_b := (1, 3)
    type_a := "PERSON"
    type_b := "CITY"
    label := "r" }

/-- An example with proper, disjoint spans. -/
def orderedExample : InputExample :=
  { id := "c4o"
    text := "ab cde".toList
    span_a := (0, 2)
    span_b := (3, 6)
    type_a := "PERSON"
    type_b := "CITY"
    label := "r" }

/-- An example whose entity type is not in `ENTITY_TYPES` but whose label
is in the vocabulary. -/
def badTypeExample : InputExample :=
  { id := "c7"
    text := "a b".toList
    span_a := (0, 1)
    span_b := (2, 3)
    type_a := "NOT_A_TYPE"
    type_b := "CITY"
    label := "x" }

/-- An example whose label is absent from the vocabulary. -/
def badLabelExample : InputExample :=
  { id := "c7b"
    text := "a b".toList
    span_a := (0, 1)
    span_b := (2, 3)
    type_a := "PERSON"
    type_b := "CITY"
    label := "unknown_label" }

/-! ### Lemmas -/

lemma addEntity_first (tokens : List (List Char)) (f : Nat × Nat) :
    addEntity tokens ([], 0) f =
      ((bPre tokens f ++ bJ tokens f ++ [' '], f.2), bSpan1 tokens f) := by
  by_cases h : joinSp (pySlice tokens 0 f.1) = []
  · simp [addEntity, bPre, bJ, bSpan1, h, List.length_append]
  · simp [addEntity, bPre, bJ, bSpan1, h, List.length_append]
    omega

lemma addEntity_second (tokens : List (List Char)) (T : List Char) (c : Nat) (s : Nat × Nat)
    (hT : T ≠ []) :
    addEntity tokens (T, c) s =
      ((T ++ joinSp (pySlice tokens c s.1) ++ [' '] ++ joinSp (pySlice tokens s.1 s.2) ++ [' '],
        s.2),
       (T.length + (joinSp (pySlice tokens c s.1)).length + 1,
        T.length + (joinSp (pySlice tokens c s.1)).length + 1
          + (joinSp (pySlice tokens s.1 s.2)).length + 1)) := by
  have h : T ++ joinSp (pySlice tokens c s.1) ≠ [] := by
    intro hEq
    exact hT (List.append_eq_nil.mp hEq).1
  simp [addEntity, h, List.length_append]
  omega

lemma createExample_subj_first (setType : String) (i : Nat) (r : Record)
    (h : entityOrder r = (.subj, .obj)) :
    createExample setType i r =
      { id := setType ++ "-" ++ toString i
        text := rstrip (bRaw r.token (tokenSpanOf r .subj) (tokenSpanOf r .obj))
        span_a := bSpan1 r.token (tokenSpanOf r .subj)
        span_b := bSpan2 r.token (tokenSpanOf r .subj) (tokenSpanOf r .obj)
        type_a := r.subj_type
        type_b := r.obj_type
        label := r.relation } := by
  have hne : bPre r.token (tokenSpanOf r .subj) ++ bJ r.token (tokenSpanOf r .subj) ++ [' '] ≠ [] := by
    simp
  rw [createExample, h]
  simp only [addEntity_first, addEntity_second _ _ _ _ hne]
  simp [bRaw, bMid, bJ, bTail, bSpan1, bSpan2, List.length_append]
  omega

lemma createExample_obj_first (setType : String) (i : Nat) (r : Record)
    (h : entityOrder r = (.obj, .subj)) :
    createExample setType i r =
      { id := setType ++ "-" ++ toString i
        text := rstrip (bRaw r.token (tokenSpanOf r .obj) (tokenSpanOf r .subj))
        span_a := bSpan2 r.token (tokenSpanOf r .obj) (tokenSpanOf r .subj)
        span_b := bSpan1 r.token (tokenSpanOf r .obj)
        type_a := r.subj_type
        type_b := r.obj_type
        label := r.relation } := by
  have hne : bPre r.token (tokenSpanOf r .obj) ++ bJ r.token (tokenSpanOf r .obj) ++ [' '] ≠ [] := by
    simp
  rw [createExample, h]
  simp only [addEntity_first, addEntity_second _ _ _ _ hne]
  simp [bRaw, bMid, bJ, bTail, bSpan1, bSpan2, List.length_append]
  omega

lemma rstrip_concat (l : List Char) (c : Char) :
    rstrip (l ++ [c]) = if pyIsSpace c then rstrip l else l ++ [c] := by
  by_cases h : pyIsSpace c <;> simp [rstrip, List.dropWhile_cons, h]

/-- If `J` ends in a non-space character, stripping `A ++ J ++ S` only
removes characters of `S`. -/
lemma rstrip_mid (A : List Char) (u : List Char) (c : Char) (S : List Char)
    (hc : pyIsSpace c = false) :
    ∃ W, rstrip (A ++ (u ++ [c]) ++ S) = A ++ (u ++ [c]) ++ W := by
  induction S using List.reverseRecOn with
  | nil =>
    refine ⟨[], ?_⟩
    have : A ++ (u ++ [c]) ++ [] = (A ++ u) ++ [c] := by simp
    rw [this, rstrip_concat, hc]
    simp
  | append_singleton S' d ih =>
    by_cases hd : pyIsSpace d
    · rcases ih with ⟨W, hW⟩
      refine ⟨W, ?_⟩
      have : A ++ (u ++ [c]) ++ (S' ++ [d]) = (A ++ (u ++ [c]) ++ S') ++ [d] := by simp
      rw [this, rstrip_concat, if_pos hd, hW]
    · refine ⟨S' ++ [d], ?_⟩
      have : A ++ (u ++ [c]) ++ (S' ++ [d]) = (A ++ (u ++ [c]) ++ S') ++ [d] := by simp
      rw [this, rstrip_concat, if_neg hd]

/-- Slicing out the middle component of a three-part concatenation. -/
lemma pySlice_mid (A J W : List α) :
    pySlice (A ++ J ++ W) A.length (A.length + J.length) = J := by
  have h1 : A ++ J ++ W = (A ++ J) ++ W := by simp
  have h2 : A.length + J.length = (A ++ J).length := (List.length_append A J).symm
  rw [pySlice, h1, h2, List.take_left, List.drop_left]

/-- A space-join of nonempty, space-free chunks ends in a non-space
character. -/
lemma joinSp_wf :
    ∀ ts : List (List Char), ts ≠ [] →
      (∀ t ∈ ts, t ≠ [] ∧ ∀ ch ∈ t, pyIsSpace ch = false) →
      ∃ u c, joinSp ts = u ++ [c] ∧ pyIsSpace c = false
  | [], h, _ => absurd rfl h
  | [t], _, h2 => by
    have ht := h2 t (by simp)
    rcases (List.eq_nil_or_concat t).resolve_left ht.1 with ⟨u, c, hu⟩
    refine ⟨u, c, ?_, ?_⟩
    · simpa [joinSp, List.concat_eq_append] using hu
    · exact ht.2 c (by simp [hu, List.concat_eq_append])
  | t :: t' :: ts, _, h2 => by
    rcases joinSp_wf (t' :: ts) (by simp) (fun x hx => h2 x (by simp [hx])) with ⟨u, c, hu, hc⟩
    refine ⟨t ++ [' '] ++ u, c, ?_, hc⟩
    simp [joinSp, hu]

lemma pySlice_ne_nil (l : List α) (a b : Nat) (h1 : a < b) (h2 : b ≤ l.length) :
    pySlice l a b ≠ [] := by
  have : (pySlice l a b).length = b - a := by
    simp [pySlice, List.length_drop, List.length_take]
    omega
  intro hEq
  rw [hEq] at this
  simp at this
  omega

lemma mem_of_mem_pySlice {l : List α} {a b : Nat} {t : α} (h : t ∈ pySlice l a b) : t ∈ l :=
  List.mem_of_mem_take (List.mem_of_mem_drop h)

lemma entityOrder_subj_first (r : Record) (h : r.subj_start < r.obj_start) :
    entityOrder r = (.subj, .obj) := by
  simp [entityOrder, h]

lemma entityOrder_obj_first (r : Record) (h : ¬r.subj_start < r.obj_start) :
    entityOrder r = (.obj, .subj) := by
  simp [entityOrder, h]

lemma bJ_wf (tokens : List (List Char)) (sp : Nat × Nat)
    (h1 : sp.1 < sp.2) (h2 : sp.2 ≤ tokens.length)
    (hw : ∀ t ∈ tokens, t ≠ [] ∧ ∀ ch ∈ t, pyIsSpace ch = false) :
    ∃ u c, bJ tokens sp = u ++ [c] ∧ pyIsSpace c = false := by
  simp only [bJ]
  exact joinSp_wf _ (pySlice_ne_nil _ _ _ h1 h2) (fun t ht => hw t (mem_of_mem_pySlice ht))

lemma bSpan_facts (tokens : List (List Char)) (f s : Nat × Nat) :
    (bSpan1 tokens f).1 < (bSpan1 tokens f).2 ∧
      (bSpan1 tokens f).2 < (bSpan2 tokens f s).1 ∧
      (bSpan2 tokens f s).1 < (bSpan2 tokens f s).2 := by
  simp [bSpan1, bSpan2]
  omega

/-- Slicing the stripped rebuilt text one short of the recorded end of the
first-processed entity recovers its space-join. -/
lemma slice_first (tokens : List (List Char)) (f s : Nat × Nat)
    (hJ : ∃ u c, bJ tokens f = u ++ [c] ∧ pyIsSpace c = false) :
    pySlice (rstrip (bRaw tokens f s)) (bSpan1 tokens f).1 ((bSpan1 tokens f).2 - 1)
      = bJ tokens f := by
  rcases hJ with ⟨u, c, hu, hc⟩
  rcases rstrip_mid (bPre tokens f) u c
      ([' '] ++ bMid tokens f s ++ [' '] ++ bJ tokens s ++ [' '] ++ bTail tokens s) hc
    with ⟨W, hW⟩
  have hraw : bRaw tokens f s =
      bPre tokens f ++ (u ++ [c]) ++
        ([' '] ++ bMid tokens f s ++ [' '] ++ bJ tokens s ++ [' '] ++ bTail tokens s) := by
    rw [bRaw, hu]
    simp
  have hidx1 : (bSpan1 tokens f).1 = (bPre tokens f).length := rfl
  have hidx2 : (bSpan1 tokens f).2 - 1 = (bPre tokens f).length + (u ++ [c]).length := by
    simp [bSpan1, hu]
  rw [hraw, hW, hidx1, hidx2, pySlice_mid, hu]

/-- Slicing the stripped rebuilt text one short of the recorded end of the
second-processed entity recovers its space-join. -/
lemma slice_second (tokens : List (List Char)) (f s : Nat × Nat)
    (hJ : ∃ u c, bJ tokens s = u ++ [c] ∧ pyIsSpace c = false) :
    pySlice (rstrip (bRaw tokens f s)) (bSpan2 tokens f s).1 ((bSpan2 tokens f s).2 - 1)
      = bJ tokens s := by
  rcases hJ with ⟨u, c, hu, hc⟩
  rcases rstrip_mid (bPre tokens f ++ bJ tokens f ++ [' '] ++ bMid tokens f s ++ [' ']) u c
      ([' '] ++ bTail tokens s) hc with ⟨W, hW⟩
  have hraw : bRaw tokens f s =
      (bPre tokens f ++ bJ tokens f ++ [' '] ++ bMid tokens f s ++ [' ']) ++ (u ++ [c]) ++
        ([' '] ++ bTail tokens s) := by
    rw [bRaw, hu]
    simp
  have hidx1 : (bSpan2 tokens f s).1 =
      (bPre tokens f ++ bJ tokens f ++ [' '] ++ bMid tokens f s ++ [' ']).length := by
    simp [bSpan2, bSpan1, List.length_append]
    omega
  have hidx2 : (bSpan2 tokens f s).2 - 1 =
      (bPre tokens f ++ bJ tokens f ++ [' '] ++ bMid tokens f s ++ [' ']).length
        + (u ++ [c]).length := by
    simp [bSpan2, bSpan1, hu, List.length_append]
    omega
  rw [hraw, hW, hidx1, hidx2, pySlice_mid, hu]

lemma addSpan_eq (tk : Tokenizer) (um : Bool) (ex : InputExample)
    (st : List String × Nat) (name : SpanName) :
    addSpan tk um ex st name =
      ((st.1 ++ tk.tokenize (pySlice ex.text st.2 (spanOf ex name).1)
          ++ segTokens tk um ex name,
        (spanOf ex name).2),
       ((st.1 ++ tk.tokenize (pySlice ex.text st.2 (spanOf ex name).1)).length,
        (st.1 ++ tk.tokenize (pySlice ex.text st.2 (spanOf ex name).1)).length
          + (segTokens tk um ex name).length)) := by
  cases um <;> simp [addSpan, segTokens, mark, List.length_append] <;> omega

lemma buildTokens_eq (tk : Tokenizer) (um : Bool) (ex : InputExample) (n1 n2 : SpanName)
    (h : spanOrder ex = (n1, n2)) :
    buildTokens tk um ex =
      (tAll tk um ex n1 n2,
       ((if n1 = .a then tSpan1 tk um ex n1 else tSpan2 tk um ex n1 n2),
        (if n1 = .a then tSpan2 tk um ex n1 n2 else tSpan1 tk um ex n1))) := by
  rw [buildTokens, h]
  simp only [addSpan_eq]
  simp [tAll, tPre, tMid, tEnd, tSpan1, tSpan2, List.length_append, List.append_assoc]
  by_cases hn : n1 = SpanName.a <;> simp [hn, Prod.ext_iff] <;> omega

lemma tokens_slice_first (tk : Tokenizer) (um : Bool) (ex : InputExample) (n1 n2 : SpanName) :
    pySlice (tAll tk um ex n1 n2) (tSpan1 tk um ex n1).1 (tSpan1 tk um ex n1).2
      = segTokens tk um ex n1 := by
  have h : tAll tk um ex n1 n2 =
      tPre tk ex n1 ++ segTokens tk um ex n1
        ++ (tMid tk ex n1 n2 ++ segTokens tk um ex n2 ++ tEnd tk ex n2) := by
    simp [tAll]
  rw [h]
  exact pySlice_mid _ _ _

lemma tokens_slice_second (tk : Tokenizer) (um : Bool) (ex : InputExample) (n1 n2 : SpanName) :
    pySlice (tAll tk um ex n1 n2) (tSpan2 tk um ex n1 n2).1 (tSpan2 tk um ex n1 n2).2
      = segTokens tk um ex n2 := by
  have h : tAll tk um ex n1 n2 =
      (tPre tk ex n1 ++ segTokens tk um ex n1 ++ tMid tk ex n1 n2) ++ segTokens tk um ex n2
        ++ tEnd tk ex n2 := by
    simp [tAll]
  have h1 : (tSpan2 tk um ex n1 n2).1 =
      (tPre tk ex n1 ++ segTokens tk um ex n1 ++ tMid tk ex n1 n2).length := by
    simp [tSpan2, List.length_append]
    omega
  have h2 : (tSpan2 tk um ex n1 n2).2 =
      (tPre tk ex n1 ++ segTokens tk um ex n1 ++ tMid tk ex n1 n2).length
        + (segTokens tk um ex n2).length := by
    simp [tSpan2, List.length_append]
    omega
  rw [h, h1, h2]
  exact pySlice_mid _ _ _

lemma getElem?_append_middle (A mid W : List α) (i : Nat) (h : i < mid.length) :
    (A ++ mid ++ W)[A.length + i]? = mid[i]? := by
  rw [List.append_assoc, List.getElem?_append_right (by omega)]
  have h2 : A.length + i - A.length = i := by omega
  rw [h2]
  simp [List.getElem?_append, h]

lemma positionIds_length (maxLen : Nat) (sp : Nat × Nat) (h : sp.1 ≤ sp.2) :
    (positionIds maxLen sp).length = maxLen := by
  simp [positionIds, List.length_take, List.length_range', List.length_replicate]
  omega

lemma positionIds_eq (maxLen : Nat) (sp : Nat × Nat) (h : sp.1 ≤ sp.2) :
    positionIds maxLen sp =
      ((List.range' sp.1 (sp.2 - sp.1)).map Int.ofNat).take maxLen
        ++ List.replicate (maxLen - (sp.2 - sp.1)) (-1) := by
  have hc : ((maxLen : Int) - sp.2 + sp.1).toNat = maxLen - (sp.2 - sp.1) := by omega
  simp only [positionIds, hc]

lemma tSpan1_le (tk : Tokenizer) (um : Bool) (ex : InputExample) (n1 : SpanName) :
    (tSpan1 tk um ex n1).1 ≤ (tSpan1 tk um ex n1).2 := by
  simp [tSpan1]

lemma tSpan2_le (tk : Tokenizer) (um : Bool) (ex : InputExample) (n1 n2 : SpanName) :
    (tSpan2 tk um ex n1 n2).1 ≤ (tSpan2 tk um ex n1 n2).2 := by
  simp [tSpan2]

/-- The two recorded token spans of `buildTokens` are well-ordered. -/
lemma buildTokens_spans_le (tk : Tokenizer) (um : Bool) (ex : InputExample) :
    (buildTokens tk um ex).2.1.1 ≤ (buildTokens tk um ex).2.1.2 ∧
      (buildTokens tk um ex).2.2.1 ≤ (buildTokens tk um ex).2.2.2 := by
  rcases hord : spanOrder ex with ⟨n1, n2⟩
  rw [buildTokens_eq tk um ex n1 n2 hord]
  by_cases hn : n1 = SpanName.a <;>
    simp [hn, tSpan1_le, tSpan2_le]

/-- Success/failure analysis of one encoding step. -/
lemma encodeExample_isSome_iff (tk : Tokenizer) (labelList : List String) (maxLen : Nat)
    (uET uM : Bool) (ex : InputExample) :
    (encodeExample tk labelList maxLen uET uM ex).isSome ↔
      ((dictLookup labelList ex.label).isSome ∧
        (uET = true → (dictLookup ENTITY_TYPES ex.type_a).isSome ∧
          (dictLookup ENTITY_TYPES ex.type_b).isSome)) := by
  cases uET <;>
    rcases hA : dictLookup ENTITY_TYPES ex.type_a with _ | i <;>
    rcases hB : dictLookup ENTITY_TYPES ex.type_b with _ | j <;>
    rcases hL : dictLookup labelList ex.label with _ | lab <;>
      simp [encodeExample, hA, hB, hL]

/-- What a successful encoding step contains. -/
lemma encodeExample_some_spec (tk : Tokenizer) (labelList : List String) (maxLen : Nat)
    (uET uM : Bool) (ex : InputExample) (f : InputFeatures)
    (h : encodeExample tk labelList maxLen uET uM ex = some f) :
    f.entity_position_ids = [positionIds maxLen (buildTokens tk uM ex).2.1,
                            positionIds maxLen (buildTokens tk uM ex).2.2] ∧
      dictLookup labelList ex.label = some f.label := by
  cases uET <;>
    rcases hA : dictLookup ENTITY_TYPES ex.type_a with _ | i <;>
    rcases hB : dictLookup ENTITY_TYPES ex.type_b with _ | j <;>
    rcases hL : dictLookup labelList ex.label with _ | lab <;>
      simp [encodeExample, hA, hB, hL] at h <;>
      subst h <;>
      simp [hL]

lemma encodeAll_of_none (f : InputExample → Option InputFeatures) (l : List InputExample)
    (x : InputExample) (hx : x ∈ l) (hfx : f x = none) : encodeAll f l = none := by
  induction l with
  | nil => cases hx
  | cons y ys ih =>
    rcases List.mem_cons.mp hx with hxy | hxys
    · subst hxy
      simp [encodeAll, hfx]
    · rw [encodeAll, ih hxys]
      cases f y <;> rfl

lemma encodeAll_of_all_some (f : InputExample → Option InputFeatures) (l : List InputExample)
    (h : ∀ x ∈ l, (f x).isSome) :
    ∃ res, encodeAll f l = some res ∧ res.length = l.length ∧
      ∀ i (h1 : i < l.length) (h2 : i < res.length),
        f (l.get ⟨i, h1⟩) = some (res.get ⟨i, h2⟩) := by
  induction l with
  | nil =>
    refine ⟨[], rfl, rfl, ?_⟩
    intro i h1
    exact absurd h1 (by simp)
  | cons y ys ih =>
    rcases Option.isSome_iff_exists.mp (h y (by simp)) with ⟨fy, hfy⟩
    rcases ih (fun x hx => h x (by simp [hx])) with ⟨res, hres, hlen, hget⟩
    refine ⟨fy :: res, ?_, by simp [hlen], ?_⟩
    · simp [encodeAll, hfy, hres]
    · intro i h1 h2
      cases i with
      | zero => simpa using hfy
      | succ n => simpa using hget n (by simpa using h1) (by simpa using h2)

lemma segTokens_true (tk : Tokenizer) (ex : InputExample) (n : SpanName) :
    segTokens tk true ex n =
      [markerOf n] ++ tk.tokenize (pySlice ex.text (spanOf ex n).1 (spanOf ex n).2)
        ++ [markerOf n] := by
  simp [segTokens, mark]

lemma getElem_seg_ends (A W : List α) (m : α) (sub : List α) :
    (A ++ ([m] ++ sub ++ [m]) ++ W)[A.length]? = some m ∧
    (A ++ ([m] ++ sub ++ [m]) ++ W)[A.length + sub.length + 1]? = some m := by
  constructor
  · have h := getElem?_append_middle A ([m] ++ sub ++ [m]) W 0 (by simp)
    simpa using h
  · have hmid : ([m] ++ sub ++ [m])[sub.length + 1]? = some m := by
      have hassoc : [m] ++ sub ++ [m] = ([m] ++ sub) ++ [m] := by simp
      rw [hassoc, List.getElem?_append_right (by simp)]
      simp
    have h := getElem?_append_middle A ([m] ++ sub ++ [m]) W (sub.length + 1) (by simp)
    rw [hmid] at h
    have hidx : A.length + sub.length + 1 = A.length + (sub.length + 1) := by omega
    rw [hidx]
    exact h

lemma mem_positionIds_of_le (maxLen : Nat) (sp : Nat × Nat) (i : Nat)
    (h1 : sp.1 <= i) (h2 : i < sp.2) (h3 : sp.2 - sp.1 <= maxLen) :
    Int.ofNat i ∈ positionIds maxLen sp := by
  rw [positionIds]
  apply List.mem_append_left
  rw [List.take_of_length_le (by simp [List.length_range']; omega)]
  exact List.mem_map_of_mem _ (by rw [List.mem_range'_1]; omega)

/-- Facts about a recorded token span that covers a marker-delimited
segment `[m] ++ sub ++ [m]` of the token sequence. -/
lemma span_marker_facts (maxLen : Nat) (toks : List String) (sp : Nat × Nat)
    (m : String) (sub A W : List String)
    (htoks : toks = A ++ ([m] ++ sub ++ [m]) ++ W)
    (hsp : sp = (A.length, A.length + (sub.length + 2))) :
    sp.2 = sp.1 + sub.length + 2 ∧
    toks[sp.1]? = some m ∧
    toks[sp.2 - 1]? = some m ∧
    (sp.2 - sp.1 ≤ maxLen →
      Int.ofNat sp.1 ∈ positionIds maxLen sp ∧
      Int.ofNat (sp.2 - 1) ∈ positionIds maxLen sp) := by
  subst htoks
  subst hsp
  refine ⟨by dsimp only; omega, (getElem_seg_ends A W m sub).1, ?_, ?_⟩
  · have hidx : (A.length, A.length + (sub.length + 2)).2 - 1 = A.length + sub.length + 1 := by
      dsimp only
      omega
    rw [hidx]
    exact (getElem_seg_ends A W m sub).2
  · intro h
    dsimp only at h ⊢
    exact ⟨mem_positionIds_of_le _ _ _ (by omega) (by omega) (by omega),
           mem_positionIds_of_le _ _ _ (by omega) (by omega) (by omega)⟩

/-! ### Claim theorems -/

/-- C1, counterexample: on the spec's round-trip record the builder does
not produce span_a = (0,4) and span_b = (15,20); the claimed conjunction
fails. -/
theorem claim1_counterexample :
    ¬((createExample "train" 0 johnRecord).text = "John lives in Paris".toList ∧
      (createExample "train" 0 johnRecord).span_a = (0, 4) ∧
      (createExample "train" 0 johnRecord).span_b = (15, 20)) := by
  decide

/-- C1, amended: for token list ["John","lives","in","Paris"], subj span
(0,0), obj span (3,3), the builder produces text "John lives in Paris",
span_a = (0,5) and span_b = (14,20) (each recorded end offset points one
past the trailing space that followed the entity before the final
right-strip). -/
theorem claim1_amended :
    (createExample "train" 0 johnRecord).text = "John lives in Paris".toList ∧
    (createExample "train" 0 johnRecord).span_a = (0, 5) ∧
    (createExample "train" 0 johnRecord).span_b = (14, 20) := by
  decide

/-- C2, counterexample: on the round-trip record (in-bounds, disjoint
spans) slicing the rebuilt text by the recorded span_a offsets yields
"John " (with a trailing space), not the space-join "John". -/
theorem claim2_counterexample :
    inBounds johnRecord ∧ spansDisjoint johnRecord ∧
    ¬(pySlice (createExample "train" 0 johnRecord).text
        (createExample "train" 0 johnRecord).span_a.1
        (createExample "train" 0 johnRecord).span_a.2
      = joinSp (pySlice johnRecord.token johnRecord.subj_start (johnRecord.subj_end + 1))) := by
  decide

/-- C2, amended: for every record with in-bounds, non-overlapping spans
whose tokens are nonempty and whitespace-free, slicing the rebuilt text
from each recorded start offset to one before the recorded end offset
(the recorded end points one past a trailing space) yields exactly the
space-join of the subject resp. object tokens. -/
theorem claim2_amended (setType : String) (i : Nat) (r : Record)
    (hb : inBounds r) (hd : spansDisjoint r) (hw : wfTokens r) :
    pySlice (createExample setType i r).text (createExample setType i r).span_a.1
        ((createExample setType i r).span_a.2 - 1)
      = joinSp (pySlice r.token r.subj_start (r.subj_end + 1)) ∧
    pySlice (createExample setType i r).text (createExample setType i r).span_b.1
        ((createExample setType i r).span_b.2 - 1)
      = joinSp (pySlice r.token r.obj_start (r.obj_end + 1)) := by
  obtain ⟨h1, h2, h3, h4⟩ := hb
  have hsubjJ : ∃ u c, bJ r.token (tokenSpanOf r .subj) = u ++ [c] ∧ pyIsSpace c = false :=
    bJ_wf r.token _ (by simp [tokenSpanOf]; omega) (by simp [tokenSpanOf]; omega) hw
  have hobjJ : ∃ u c, bJ r.token (tokenSpanOf r .obj) = u ++ [c] ∧ pyIsSpace c = false :=
    bJ_wf r.token _ (by simp [tokenSpanOf]; omega) (by simp [tokenSpanOf]; omega) hw
  rcases hd with hso | hos
  · have hord := entityOrder_subj_first r (by omega)
    rw [createExample_subj_first _ _ _ hord]
    constructor
    · simpa [bJ, tokenSpanOf] using
        slice_first r.token (tokenSpanOf r .subj) (tokenSpanOf r .obj) hsubjJ
    · simpa [bJ, tokenSpanOf] using
        slice_second r.token (tokenSpanOf r .subj) (tokenSpanOf r .obj) hobjJ
  · have hord := entityOrder_obj_first r (by omega)
    rw [createExample_obj_first _ _ _ hord]
    constructor
    · simpa [bJ, tokenSpanOf] using
        slice_second r.token (tokenSpanOf r .obj) (tokenSpanOf r .subj) hsubjJ
    · simpa [bJ, tokenSpanOf] using
        slice_first r.token (tokenSpanOf r .obj) (tokenSpanOf r .subj) hobjJ

/-- C2, witness: the amended claim evaluated on the round-trip record. -/
theorem claim2_witness :
    inBounds johnRecord ∧ spansDisjoint johnRecord ∧ wfTokens johnRecord ∧
    (pySlice (createExample "train" 0 johnRecord).text
        (createExample "train" 0 johnRecord).span_a.1
        ((createExample "train" 0 johnRecord).span_a.2 - 1)
      = joinSp (pySlice johnRecord.token johnRecord.subj_start (johnRecord.subj_end + 1)) ∧
    pySlice (createExample "train" 0 johnRecord).text
        (createExample "train" 0 johnRecord).span_b.1
        ((createExample "train" 0 johnRecord).span_b.2 - 1)
      = joinSp (pySlice johnRecord.token johnRecord.obj_start (johnRecord.obj_end + 1))) :=
  ⟨by decide, by decide, by decide,
   claim2_amended "train" 0 johnRecord (by decide) (by decide) (by decide)⟩

/-- C3, counterexample: on a record whose spans start at the same offset
the builder lays out the obj entity first, not the subj entity. -/
theorem claim3_counterexample :
    tieRecord.subj_start = tieRecord.obj_start ∧
    entityOrder tieRecord = (.obj, .subj) ∧
    ¬entityOrder tieRecord = (.subj, .obj) ∧
    (createExample "train" 0 tieRecord).span_b.1
      < (createExample "train" 0 tieRecord).span_a.1 := by
  decide

/-- C3, amended: the entity with the smaller start offset is laid out
first; on equal start offsets the obj entity (not the subj entity) comes
first, and its character span precedes the subj span in the rebuilt
text. -/
theorem claim3_amended (setType : String) (i : Nat) (r : Record) :
    (r.subj_start = r.obj_start →
      entityOrder r = (.obj, .subj) ∧
      (createExample setType i r).span_b.1 < (createExample setType i r).span_a.1) ∧
    (r.subj_start < r.obj_start →
      entityOrder r = (.subj, .obj) ∧
      (createExample setType i r).span_a.1 < (createExample setType i r).span_b.1) ∧
    (r.obj_start < r.subj_start →
      entityOrder r = (.obj, .subj) ∧
      (createExample setType i r).span_b.1 < (createExample setType i r).span_a.1) := by
  refine ⟨fun h => ?_, fun h => ?_, fun h => ?_⟩
  · have hord := entityOrder_obj_first r (by omega)
    refine ⟨hord, ?_⟩
    rw [createExample_obj_first _ _ _ hord]
    have := bSpan_facts r.token (tokenSpanOf r .obj) (tokenSpanOf r .subj)
    dsimp only
    omega
  · have hord := entityOrder_subj_first r h
    refine ⟨hord, ?_⟩
    rw [createExample_subj_first _ _ _ hord]
    have := bSpan_facts r.token (tokenSpanOf r .subj) (tokenSpanOf r .obj)
    dsimp only
    omega
  · have hord := entityOrder_obj_first r (by omega)
    refine ⟨hord, ?_⟩
    rw [createExample_obj_first _ _ _ hord]
    have := bSpan_facts r.token (tokenSpanOf r .obj) (tokenSpanOf r .subj)
    dsimp only
    omega

/-- C3, witness: the amended claim evaluated on a tie record and on the
round-trip record. -/
theorem claim3_witness :
    (entityOrder tieRecord = (.obj, .subj) ∧
      (createExample "train" 0 tieRecord).span_b.1
        < (createExample "train" 0 tieRecord).span_a.1) ∧
    (entityOrder johnRecord = (.subj, .obj) ∧
      (createExample "train" 0 johnRecord).span_a.1
        < (createExample "train" 0 johnRecord).span_b.1) :=
  ⟨(claim3_amended "train" 0 tieRecord).1 (by decide),
   (claim3_amended "train" 0 johnRecord).2.1 (by decide)⟩

/-- C4, counterexample: on an example where span_a starts first but ends
after span_b, the encoder processes span_b first — it does not order by
start offset. -/
theorem claim4_counterexample :
    overlapExample.span_a.1 < overlapExample.span_b.1 ∧
    spanOrder overlapExample = (.b, .a) ∧
    ¬spanOrder overlapExample = (.a, .b) := by
  decide

/-- C4, amended: the encoder processes the two spans in order of
increasing END offset — span_a first exactly when it ends strictly first,
span_b first when it ends strictly first — with span_b processed first
when the end offsets are equal; for proper disjoint spans this coincides
with ordering by start offset. -/
theorem claim4_amended :
    (∀ ex : InputExample, ex.span_a.2 < ex.span_b.2 → spanOrder ex = (.a, .b)) ∧
    (∀ ex : InputExample, ex.span_b.2 < ex.span_a.2 → spanOrder ex = (.b, .a)) ∧
    (∀ ex : InputExample, ex.span_a.2 = ex.span_b.2 → spanOrder ex = (.b, .a)) ∧
    (∀ ex : InputExample,
      ex.span_a.1 < ex.span_a.2 → ex.span_b.1 < ex.span_b.2 →
      (ex.span_a.2 ≤ ex.span_b.1 ∨ ex.span_b.2 ≤ ex.span_a.1) →
      (spanOrder ex = (.a, .b) ↔ ex.span_a.1 < ex.span_b.1)) := by
  refine ⟨?_, ?_, ?_, ?_⟩
  · intro ex h
    simp [spanOrder, h]
  · intro ex h
    have hnlt : ¬ex.span_a.2 < ex.span_b.2 := by omega
    simp [spanOrder, hnlt]
  · intro ex h
    simp [spanOrder, h]
  · intro ex ha hb hd
    rcases hd with h | h
    · have hlt : ex.span_a.2 < ex.span_b.2 := by omega
      simp only [spanOrder, if_pos hlt]
      constructor
      · intro _
        omega
      · intro _
        trivial
    · have hnlt : ¬ex.span_a.2 < ex.span_b.2 := by omega
      simp only [spanOrder, if_neg hnlt]
      constructor
      · intro hfalse
        exact absurd hfalse (by decide)
      · intro hlt
        omega

/-- C4, witness: the amended claim evaluated on two overlapping examples
(span_a ending first, span_b ending first), an equal-ends example, and a
proper disjoint example. -/
theorem claim4_witness :
    spanOrder overlapExample2 = (.a, .b) ∧
    spanOrder overlapExample = (.b, .a) ∧
    spanOrder tieEndsExample = (.b, .a) ∧
    (spanOrder orderedExample = (.a, .b) ↔ orderedExample.span_a.1 < orderedExample.span_b.1) :=
  ⟨claim4_amended.1 overlapExample2 (by decide),
   claim4_amended.2.1 overlapExample (by decide),
   claim4_amended.2.2.1 tieEndsExample (by decide),
   claim4_amended.2.2.2 orderedExample (by decide) (by decide) (by decide)⟩

/-- C5: for every training split, the label vocabulary has "no_relation"
at index 0 and its remaining entries are exactly the distinct labels of
the training examples other than "no_relation", in sorted order without
duplicates. -/
theorem claim5 (records : List Record) :
    (getLabelList records).head? = some "no_relation" ∧
    List.Sorted (· ≤ ·) (getLabelList records).tail ∧
    (getLabelList records).tail.Nodup ∧
    ∀ l, l ∈ (getLabelList records).tail ↔
      (l ∈ (createExamples "train" records).map (·.label) ∧ l ≠ "no_relation") := by
  refine ⟨rfl, ?_, ?_, ?_⟩
  · simp only [getLabelList, List.tail_cons]
    exact List.sorted_insertionSort _ _
  · simp only [getLabelList, List.tail_cons]
    exact (List.perm_insertionSort _ _).nodup_iff.mpr (List.nodup_dedup _)
  · intro l
    simp only [getLabelList, List.tail_cons, List.mem_insertionSort, List.mem_dedup,
      List.mem_filter]
    simp [and_comm]

/-- C6: every Features record produced by the encoder carries exactly the
two position-id lists of the recorded token spans; each list has length
max_mention_length and equals the consecutive token indices of the span
truncated to max_mention_length entries followed by -1 padding. -/
theorem claim6 (tk : Tokenizer) (labelList : List String) (maxLen : Nat)
    (uET uM : Bool) (ex : InputExample) (f : InputFeatures)
    (h : encodeExample tk labelList maxLen uET uM ex = some f) :
    f.entity_position_ids
      = [positionIds maxLen (buildTokens tk uM ex).2.1,
         positionIds maxLen (buildTokens tk uM ex).2.2] ∧
    (∀ ids ∈ f.entity_position_ids, ids.length = maxLen) ∧
    positionIds maxLen (buildTokens tk uM ex).2.1
      = ((List.range' (buildTokens tk uM ex).2.1.1
            ((buildTokens tk uM ex).2.1.2 - (buildTokens tk uM ex).2.1.1)).map
            Int.ofNat).take maxLen
        ++ List.replicate
            (maxLen - ((buildTokens tk uM ex).2.1.2 - (buildTokens tk uM ex).2.1.1)) (-1) ∧
    positionIds maxLen (buildTokens tk uM ex).2.2
      = ((List.range' (buildTokens tk uM ex).2.2.1
            ((buildTokens tk uM ex).2.2.2 - (buildTokens tk uM ex).2.2.1)).map
            Int.ofNat).take maxLen
        ++ List.replicate
            (maxLen - ((buildTokens tk uM ex).2.2.2 - (buildTokens tk uM ex).2.2.1)) (-1) := by
  have hle := buildTokens_spans_le tk uM ex
  have hspec := encodeExample_some_spec tk labelList maxLen uET uM ex f h
  refine ⟨hspec.1, ?_, positionIds_eq _ _ hle.1, positionIds_eq _ _ hle.2⟩
  intro ids hids
  rw [hspec.1] at hids
  simp only [List.mem_cons, List.not_mem_nil, or_false] at hids
  rcases hids with rfl | rfl
  · exact positionIds_length _ _ hle.1
  · exact positionIds_length _ _ hle.2

/-- C6, witness: the encoder evaluated on the round-trip record with
markers and only two slots, so that each three-token range is truncated. -/
theorem claim6_witness :
    ∃ f, encodeExample toyTokenizer ["lives_in"] 2 false true
            (createExample "train" 0 johnRecord) = some f ∧
      f.entity_position_ids
        = [positionIds 2 (buildTokens toyTokenizer true (createExample "train" 0 johnRecord)).2.1,
           positionIds 2
             (buildTokens toyTokenizer true (createExample "train" 0 johnRecord)).2.2] ∧
      ∀ ids ∈ f.entity_position_ids, ids.length = 2 := by
  rcases hE : encodeExample toyTokenizer ["lives_in"] 2 false true
      (createExample "train" 0 johnRecord) with _ | f
  · exact absurd hE (by decide)
  · have hc := claim6 toyTokenizer ["lives_in"] 2 false true _ f hE
    exact ⟨f, rfl, hc.1, hc.2.1⟩

/-- C7, counterexample: an example whose label is in the vocabulary but
whose entity type is unknown makes the conversion fail even though every
label is present, so "one record per example whenever every label is
present" does not hold as stated. -/
theorem claim7_counterexample :
    dictLookup ["x"] badTypeExample.label = some 0 ∧
    convert_examples_to_features [badTypeExample] ["x"] toyTokenizer 3 true false = none := by
  decide

/-- C7, amended: the conversion errors (returns none) when any example's
label is absent from the vocabulary; and it produces exactly one Features
record per input example, in input order, with the label mapped to its
vocabulary index, whenever every label is present and — if entity type
tokens are enabled — every entity type is in ENTITY_TYPES. -/
theorem claim7_amended (examples : List InputExample) (labelList : List String)
    (tk : Tokenizer) (maxLen : Nat) (uET uM : Bool) :
    ((∃ ex ∈ examples, dictLookup labelList ex.label = none) →
      convert_examples_to_features examples labelList tk maxLen uET uM = none) ∧
    ((∀ ex ∈ examples, (dictLookup labelList ex.label).isSome ∧
        (uET = true → (dictLookup ENTITY_TYPES ex.type_a).isSome ∧
          (dictLookup ENTITY_TYPES ex.type_b).isSome)) →
      ∃ fs, convert_examples_to_features examples labelList tk maxLen uET uM = some fs ∧
        fs.length = examples.length ∧
        ∀ i (h1 : i < examples.length) (h2 : i < fs.length),
          encodeExample tk labelList maxLen uET uM (examples.get ⟨i, h1⟩)
            = some (fs.get ⟨i, h2⟩) ∧
          dictLookup labelList (examples.get ⟨i, h1⟩).label
            = some ((fs.get ⟨i, h2⟩).label)) := by
  constructor
  · rintro ⟨ex, hmem, hnone⟩
    unfold convert_examples_to_features
    apply encodeAll_of_none _ _ ex hmem
    rcases hE : encodeExample tk labelList maxLen uET uM ex with _ | f
    · rfl
    · have hs : (encodeExample tk labelList maxLen uET uM ex).isSome = true := by
        simp [hE]
      have hs2 := ((encodeExample_isSome_iff tk labelList maxLen uET uM ex).mp hs).1
      rw [hnone] at hs2
      simp at hs2
  · intro hall
    have hsome : ∀ x ∈ examples, (encodeExample tk labelList maxLen uET uM x).isSome :=
      fun x hx => (encodeExample_isSome_iff tk labelList maxLen uET uM x).mpr (hall x hx)
    rcases encodeAll_of_all_some _ _ hsome with ⟨res, hres, hlen, hget⟩
    refine ⟨res, hres, hlen, fun i h1 h2 => ?_⟩
    have henc := hget i h1 h2
    exact ⟨henc, (encodeExample_some_spec _ _ _ _ _ _ _ henc).2⟩

/-- C7, witness: both parts of the amended claim evaluated on concrete
inputs — an unknown label makes the conversion fail, and a single valid
example converts to exactly one record with its label index. -/
theorem claim7_witness :
    convert_examples_to_features [badLabelExample] ["x"] toyTokenizer 3 false false = none ∧
    ∃ fs, convert_examples_to_features [createExample "train" 0 johnRecord] ["lives_in"]
            toyTokenizer 3 false false = some fs ∧
      fs.length = [createExample "train" 0 johnRecord].length ∧
      ∀ i (h1 : i < [createExample "train" 0 johnRecord].length) (h2 : i < fs.length),
        encodeExample toyTokenizer ["lives_in"] 3 false false
            ([createExample "train" 0 johnRecord].get ⟨i, h1⟩) = some (fs.get ⟨i, h2⟩) ∧
        dictLookup ["lives_in"] ([createExample "train" 0 johnRecord].get ⟨i, h1⟩).label
          = some ((fs.get ⟨i, h2⟩).label) :=
  ⟨(claim7_amended [badLabelExample] ["x"] toyTokenizer 3 false false).1
      ⟨badLabelExample, by decide, by decide⟩,
   (claim7_amended [createExample "train" 0 johnRecord] ["lives_in"] toyTokenizer 3 false
      false).2 (by decide)⟩

/-- C8: for every record with in-bounds, non-overlapping token spans, the
produced example's span_a and span_b are non-overlapping character ranges
and each has end strictly greater than start. -/
theorem claim8 (setType : String) (i : Nat) (r : Record)
    (_hb : inBounds r) (_hd : spansDisjoint r) :
    (createExample setType i r).span_a.1 < (createExample setType i r).span_a.2 ∧
    (createExample setType i r).span_b.1 < (createExample setType i r).span_b.2 ∧
    ((createExample setType i r).span_a.2 ≤ (createExample setType i r).span_b.1 ∨
      (createExample setType i r).span_b.2 ≤ (createExample setType i r).span_a.1) := by
  by_cases hc : r.subj_start < r.obj_start
  · rw [createExample_subj_first _ _ _ (entityOrder_subj_first r hc)]
    have := bSpan_facts r.token (tokenSpanOf r .subj) (tokenSpanOf r .obj)
    dsimp only
    omega
  · rw [createExample_obj_first _ _ _ (entityOrder_obj_first r hc)]
    have := bSpan_facts r.token (tokenSpanOf r .obj) (tokenSpanOf r .subj)
    dsimp only
    omega

/-- C8, witness: the invariant evaluated on the round-trip record. -/
theorem claim8_witness :
    inBounds johnRecord ∧ spansDisjoint johnRecord ∧
    ((createExample "train" 0 johnRecord).span_a.1
        < (createExample "train" 0 johnRecord).span_a.2 ∧
      (createExample "train" 0 johnRecord).span_b.1
        < (createExample "train" 0 johnRecord).span_b.2 ∧
      ((createExample "train" 0 johnRecord).span_a.2
          ≤ (createExample "train" 0 johnRecord).span_b.1 ∨
        (createExample "train" 0 johnRecord).span_b.2
          ≤ (createExample "train" 0 johnRecord).span_a.1)) :=
  ⟨by decide, by decide, claim8 "train" 0 johnRecord (by decide) (by decide)⟩

/-- C9: with marker tokens enabled, the token segment between the recorded
token offsets of span_a is exactly a HEAD marker, the subword tokens of
span_a's text, and a closing HEAD marker; likewise for span_b with TAIL
markers. -/
theorem claim9 (tk : Tokenizer) (ex : InputExample) :
    pySlice (buildTokens tk true ex).1 (buildTokens tk true ex).2.1.1
        (buildTokens tk true ex).2.1.2
      = [HEAD_TOKEN] ++ tk.tokenize (pySlice ex.text ex.span_a.1 ex.span_a.2)
          ++ [HEAD_TOKEN] ∧
    pySlice (buildTokens tk true ex).1 (buildTokens tk true ex).2.2.1
        (buildTokens tk true ex).2.2.2
      = [TAIL_TOKEN] ++ tk.tokenize (pySlice ex.text ex.span_b.1 ex.span_b.2)
          ++ [TAIL_TOKEN] := by
  by_cases hc : ex.span_a.2 < ex.span_b.2
  · have hord : spanOrder ex = (.a, .b) := by simp [spanOrder, hc]
    rw [buildTokens_eq tk true ex _ _ hord]
    constructor
    · simpa [segTokens_true, markerOf, spanOf] using tokens_slice_first tk true ex .a .b
    · simpa [segTokens_true, markerOf, spanOf] using tokens_slice_second tk true ex .a .b
  · have hord : spanOrder ex = (.b, .a) := by simp [spanOrder, hc]
    rw [buildTokens_eq tk true ex _ _ hord]
    constructor
    · simpa [segTokens_true, markerOf, spanOf] using tokens_slice_second tk true ex .b .a
    · simpa [segTokens_true, markerOf, spanOf] using tokens_slice_first tk true ex .b .a

/-- C10: with marker tokens enabled, each entity's recorded token range
starts at the opening marker and ends one past the closing marker (so it
spans the subword count plus two), and — whenever the range fits in the
slot count — the entity's position ids include the indices of both
markers. -/
theorem claim10 (tk : Tokenizer) (maxLen : Nat) (ex : InputExample) :
    ((buildTokens tk true ex).2.1.2
        = (buildTokens tk true ex).2.1.1
          + (tk.tokenize (pySlice ex.text ex.span_a.1 ex.span_a.2)).length + 2 ∧
      (buildTokens tk true ex).1[(buildTokens tk true ex).2.1.1]? = some HEAD_TOKEN ∧
      (buildTokens tk true ex).1[(buildTokens tk true ex).2.1.2 - 1]? = some HEAD_TOKEN) ∧
    ((buildTokens tk true ex).2.2.2
        = (buildTokens tk true ex).2.2.1
          + (tk.tokenize (pySlice ex.text ex.span_b.1 ex.span_b.2)).length + 2 ∧
      (buildTokens tk true ex).1[(buildTokens tk true ex).2.2.1]? = some TAIL_TOKEN ∧
      (buildTokens tk true ex).1[(buildTokens tk true ex).2.2.2 - 1]? = some TAIL_TOKEN) ∧
    ((buildTokens tk true ex).2.1.2 - (buildTokens tk true ex).2.1.1 ≤ maxLen →
      Int.ofNat (buildTokens tk true ex).2.1.1
          ∈ positionIds maxLen (buildTokens tk true ex).2.1 ∧
      Int.ofNat ((buildTokens tk true ex).2.1.2 - 1)
          ∈ positionIds maxLen (buildTokens tk true ex).2.1) ∧
    ((buildTokens tk true ex).2.2.2 - (buildTokens tk true ex).2.2.1 ≤ maxLen →
      Int.ofNat (buildTokens tk true ex).2.2.1
          ∈ positionIds maxLen (buildTokens tk true ex).2.2 ∧
      Int.ofNat ((buildTokens tk true ex).2.2.2 - 1)
          ∈ positionIds maxLen (buildTokens tk true ex).2.2) := by
  by_cases hc : ex.span_a.2 < ex.span_b.2
  · have hord : spanOrder ex = (.a, .b) := by simp [spanOrder, hc]
    have hb := buildTokens_eq tk true ex _ _ hord
    have hA := span_marker_facts maxLen (buildTokens tk true ex).1
        (buildTokens tk true ex).2.1 HEAD_TOKEN
        (tk.tokenize (pySlice ex.text ex.span_a.1 ex.span_a.2))
        (tPre tk ex .a)
        (tMid tk ex .a .b ++ segTokens tk true ex .b ++ tEnd tk ex .b)
        (by rw [hb]; simp [tAll, segTokens_true, markerOf, spanOf, List.append_assoc])
        (by rw [hb]; simp [tSpan1, segTokens_true, markerOf, spanOf, Prod.ext_iff])
    have hB := span_marker_facts maxLen (buildTokens tk true ex).1
        (buildTokens tk true ex).2.2 TAIL_TOKEN
        (tk.tokenize (pySlice ex.text ex.span_b.1 ex.span_b.2))
        (tPre tk ex .a ++ segTokens tk true ex .a ++ tMid tk ex .a .b)
        (tEnd tk ex .b)
        (by rw [hb]; simp [tAll, segTokens_true, markerOf, spanOf, List.append_assoc])
        (by rw [hb]
            simp [tSpan2, segTokens_true, markerOf, spanOf, List.length_append, Prod.ext_iff]
            omega)
    exact ⟨⟨hA.1, hA.2.1, hA.2.2.1⟩, ⟨hB.1, hB.2.1, hB.2.2.1⟩, hA.2.2.2, hB.2.2.2⟩
  · have hord : spanOrder ex = (.b, .a) := by simp [spanOrder, hc]
    have hb := buildTokens_eq tk true ex _ _ hord
    have hA := span_marker_facts maxLen (buildTokens tk true ex).1
        (buildTokens tk true ex).2.1 HEAD_TOKEN
        (tk.tokenize (pySlice ex.text ex.span_a.1 ex.span_a.2))
        (tPre tk ex .b ++ segTokens tk true ex .b ++ tMid tk ex .b .a)
        (tEnd tk ex .a)
        (by rw [hb]; simp [tAll, segTokens_true, markerOf, spanOf, List.append_assoc])
        (by rw [hb]
            simp [tSpan2, segTokens_true, markerOf, spanOf, List.length_append, Prod.ext_iff]
            omega)
    have hB := span_marker_facts maxLen (buildTokens tk true ex).1
        (buildTokens tk true ex).2.2 TAIL_TOKEN
        (tk.tokenize (pySlice ex.text ex.span_b.1 ex.span_b.2))
        (tPre tk ex .b)
        (tMid tk ex .b .a ++ segTokens tk true ex .a ++ tEnd tk ex .a)
        (by rw [hb]; simp [tAll, segTokens_true, markerOf, spanOf, List.append_assoc])
        (by rw [hb]; simp [tSpan1, segTokens_true, markerOf, spanOf, Prod.ext_iff])
    exact ⟨⟨hA.1, hA.2.1, hA.2.2.1⟩, ⟨hB.1, hB.2.1, hB.2.2.1⟩, hA.2.2.2, hB.2.2.2⟩

/-- C10, witness: the position-id membership part evaluated on the
round-trip record with the toy tokenizer and four slots. -/
theorem claim10_witness :
    Int.ofNat (buildTokens toyTokenizer true (createExample "train" 0 johnRecord)).2.1.1
        ∈ positionIds 4 (buildTokens toyTokenizer true (createExample "train" 0 johnRecord)).2.1 ∧
    Int.ofNat ((buildTokens toyTokenizer true (createExample "train" 0 johnRecord)).2.1.2 - 1)
        ∈ positionIds 4 (buildTokens toyTokenizer true (createExample "train" 0 johnRecord)).2.1 :=
  (claim10 toyTokenizer 4 (createExample "train" 0 johnRecord)).2.2.1 (by decide)

end Luke
